import Mathlib

/-!
# Google-Drive-API: the Express server of `index.js`

A shallow embedding of `src/index.js`.  The process has one mutable object, the
`oAuth2Client`, whose `credentials` slot is written by the callback route and, inside a
storage operation, by the client itself when it renews the access token.  Every route
handler is a function from the server state, the answers of the external provider and the
request to a response, a new server state and the list of provider calls it made.

Requests are handled one at a time: a handler runs from its first statement to its
response without another handler running in between.  Console output of the route handlers
is left out; console output of the startup script is kept in the startup trace.
-/

namespace GoogleDriveAPI

/-! ## JavaScript values -/

/-- The value thrown by a failing call: a JavaScript `Error` with its `message`. -/
structure JsError where
  message : String
deriving DecidableEq, Repr

/-- A value found in `req.query`: a string, an array of strings or a flat object. -/
inductive QueryValue where
  | str (s : String)
  | arr (items : List String)
  | obj (fields : List (String × String))
deriving DecidableEq, Repr

/-- JavaScript truthiness of a query value: only the empty string is falsy. -/
def QueryValue.truthy : QueryValue → Bool
  | .str s => s != ""
  | .arr _ => true
  | .obj _ => true

/-- JavaScript truthiness of a string or `undefined` (`none`). -/
def truthy : Option String → Bool
  | none => false
  | some s => s != ""

/-! ## The vendor SDK: credentials, tokens, the OAuth2 client -/

/-- The object the callback route passes to `setCredentials`. -/
structure Credentials where
  refresh_token : Option String
  access_token : Option String
deriving DecidableEq, Repr

/-- The `tokens` of a token-exchange answer; the route reads these two properties. -/
structure Tokens where
  access_token : Option String
  refresh_token : Option String
deriving DecidableEq, Repr

/-- Modelled from the spec: the SDK class `google.auth.OAuth2`, which `index.js` only calls.
It keeps the three configuration values it was built from and the single process-wide
credential slot (spec 3 and 4.3); `none` is the slot before any credential was stored. -/
structure OAuth2Client where
  clientId : Option String
  clientSecret : Option String
  redirectUri : Option String
  credentials : Option Credentials
deriving DecidableEq, Repr

/-- Modelled from the spec: the SDK constructor `new google.auth.OAuth2(id, secret, uri)`,
which `index.js` only calls; the client starts without a credential. -/
def OAuth2Client.new (clientId clientSecret redirectUri : Option String) : OAuth2Client :=
  { clientId := clientId, clientSecret := clientSecret, redirectUri := redirectUri,
    credentials := none }

/-- Modelled from the spec: the SDK method `setCredentials`, which `index.js` only calls: it
stores the given credential as the current one, overwriting any prior one (spec 4.3). -/
def OAuth2Client.setCredentials (c : OAuth2Client) (cr : Credentials) : OAuth2Client :=
  { c with credentials := some cr }

/-- The renewal of the access token by the SDK client, which `index.js` arms by asking for
offline access (line 41) and by storing the refresh token without an expiry date (lines
77-80).  A client that holds a refresh token and receives renewed tokens `t` keeps its
refresh token and takes the access token of `t`; without a refresh token, or without renewed
tokens, the slot stays as it is. -/
def OAuth2Client.renewed (c : OAuth2Client) (t : Option Tokens) : OAuth2Client :=
  match c.credentials, t with
  | some cr, some t =>
    if truthy cr.refresh_token then
      { c with
        credentials := some { refresh_token := cr.refresh_token, access_token := t.access_token } }
    else c
  | _, _ => c

/-- The options object passed to `generateAuthUrl` at line 40. -/
structure AuthUrlOpts where
  access_type : String
  scope : List String
  include_granted_scopes : Bool
deriving DecidableEq, Repr

/-- Modelled from the spec: the URL built by the SDK method `generateAuthUrl`, which
`index.js` only calls.  Spec 4.2: the URL encodes the client identifier, the redirect target,
the requested scopes, the offline-access flag and the include-granted-scopes flag.  The URL
is kept as the record of what it encodes; how the SDK writes it as text is not modelled. -/
structure AuthUrl where
  client_id : Option String
  redirect_uri : Option String
  scope : List String
  access_type : String
  include_granted_scopes : Bool
deriving DecidableEq, Repr

/-- Modelled from the spec: the SDK method `generateAuthUrl`, which `index.js` only calls
(spec 4.2). -/
def OAuth2Client.generateAuthUrl (c : OAuth2Client) (opts : AuthUrlOpts) : AuthUrl :=
  { client_id := c.clientId, redirect_uri := c.redirectUri, scope := opts.scope,
    access_type := opts.access_type, include_granted_scopes := opts.include_granted_scopes }

/-! ## The storage API -/

/-- The argument of `drive.files.list`. -/
structure ListParams where
  pageSize : Nat
  fields : String
deriving DecidableEq, Repr

/-- One entry of `response.data.files`. -/
structure DriveFile where
  name : String
  id : String
deriving DecidableEq, Repr

/-- The `data` of a list answer. -/
structure ListData where
  files : List DriveFile
deriving DecidableEq, Repr

/-- The bytes of an upload. -/
abbrev ByteStream := List Nat

/-- The `resource` of a create call. -/
structure Resource where
  name : String
  mimeType : String
deriving DecidableEq, Repr

/-- The `media` of a create call; `body` is whatever `req.file.stream` holds. -/
structure Media where
  mimeType : String
  body : Option ByteStream
deriving DecidableEq, Repr

/-- The argument of `drive.files.create`. -/
structure CreateParams where
  resource : Resource
  media : Media
deriving DecidableEq, Repr

/-- The `data` of a create answer. -/
structure CreateData where
  id : String
deriving DecidableEq, Repr

/-- What the SDK, with the external provider behind it, answers to each operation the server
can invoke.  The two storage operations receive the credential the client holds when they
are invoked, and answer what the handler gets back in the end.  `renewal` is what the token
endpoint gives the client when it renews the access token during a storage operation
invoked with that credential, and `none` when the client does not renew then. -/
structure Provider where
  getToken : QueryValue → Except JsError Tokens
  filesList : Option Credentials → ListParams → Except JsError ListData
  filesCreate : Option Credentials → CreateParams → Except JsError CreateData
  renewal : Option Credentials → Option Tokens

/-- A call made to the external provider. -/
inductive Call where
  | getToken (code : QueryValue)
  | filesList (auth : Option Credentials) (params : ListParams)
  | filesCreate (auth : Option Credentials) (params : CreateParams)
deriving DecidableEq, Repr

/-! ## Express: requests and responses -/

/-- The file object the upload middleware puts in `req.file`.  `stream` is the property the
upload route reads; it is `none` when the object has no such property. -/
structure UploadedFile where
  originalname : String
  mimetype : String
  stream : Option ByteStream
  path : String
  size : Nat
deriving DecidableEq, Repr

/-- The file part of an incoming multipart body, found in the field `file`. -/
structure FilePart where
  filename : String
  contentType : String
  content : ByteStream
deriving DecidableEq, Repr

/-- The upload middleware of lines 5 and 121, `multer` with `dest: 'uploads/'`: the part is
written to a file in `uploads/` under the name `staged` that the middleware picks, and
`req.file` describes the staged file by its original name, declared type, path and size.
It has no `stream` property. -/
def uploadSingle (part : Option FilePart) (staged : String) : Option UploadedFile :=
  match part with
  | none => none
  | some f =>
    some
      { originalname := f.filename, mimetype := f.contentType, stream := none,
        path := "uploads/" ++ staged, size := f.content.length }

/-- The five routes registered by `index.js`. -/
inductive Route where
  | root
  | authGoogle
  | authGoogleCallback
  | files
  | upload
deriving DecidableEq, Repr

/-- A request that Express has routed; `file` is `req.file` after the upload middleware. -/
structure Request where
  route : Route
  query : List (String × QueryValue)
  headers : List (String × String)
  body : String
  file : Option UploadedFile
deriving DecidableEq, Repr

/-- A JSON body sent by `res.json`. -/
inductive Json where
  | files (l : List DriveFile)
  | obj (fields : List (String × String))
deriving DecidableEq, Repr

/-- A response body. -/
inductive Body where
  | text (s : String)
  | json (v : Json)
deriving DecidableEq, Repr

/-- The Express response object: status 200 until `status` or `redirect` changes it. -/
structure Res where
  statusCode : Nat := 200
  location : Option AuthUrl := none
  body : Option Body := none
deriving DecidableEq, Repr

/-- Express `res.status(n)`. -/
def Res.status (r : Res) (n : Nat) : Res := { r with statusCode := n }

/-- Express `res.send(text)`. -/
def Res.send (r : Res) (s : String) : Res := { r with body := some (.text s) }

/-- Express `res.json(value)`. -/
def Res.json (r : Res) (v : Json) : Res := { r with body := some (.json v) }

/-- Express `res.redirect(url)`: status 302 and the `Location` target. -/
def Res.redirect (r : Res) (url : AuthUrl) : Res :=
  { r with statusCode := 302, location := some url }

/-! ## The server -/

/-- The port of `app.listen`: `process.env.PORT || 5000`. -/
inductive Port where
  | env (s : String)
  | num (n : Nat)
deriving DecidableEq, Repr

/-- The module-level values of `index.js` that the handlers use. -/
structure Server where
  oAuth2Client : OAuth2Client
  authUrl : AuthUrl
  PORT : Port
deriving DecidableEq, Repr

/-- What handling one request produces. -/
structure Outcome where
  res : Res
  server : Server
  calls : List Call
deriving DecidableEq, Repr

/-- Route `GET /auth/google` (lines 47-49). -/
def authGoogleHandler (srv : Server) (_p : Provider) (_req : Request) : Outcome :=
  { res := Res.redirect {} srv.authUrl, server := srv, calls := [] }

/-- Route `GET /auth/google/callback` (lines 52-94).  `req.query.code` is `undefined` when the
query has no `code`; `!code` holds for `undefined` and for the empty string. -/
def authGoogleCallbackHandler (srv : Server) (p : Provider) (req : Request) : Outcome :=
  let code := req.query.lookup "code"
  match code with
  | none =>
    { res := (Res.status {} 400).send "No authorization code received", server := srv,
      calls := [] }
  | some c =>
    if !c.truthy then
      { res := (Res.status {} 400).send "No authorization code received", server := srv,
        calls := [] }
    else
      match p.getToken c with
      | .ok tokens =>
        let accessToken := tokens.access_token
        let refreshToken := tokens.refresh_token
        { res := Res.send {} "Authentication successful!",
          server :=
            { srv with
              oAuth2Client := srv.oAuth2Client.setCredentials
                { refresh_token := refreshToken, access_token := accessToken } },
          calls := [.getToken c] }
      | .error error =>
        { res := (Res.status {} 500).send ("Authentication failed: " ++ error.message),
          server := srv, calls := [.getToken c] }

/-- Route `GET /` (lines 103-105). -/
def rootHandler (srv : Server) (_p : Provider) (_req : Request) : Outcome :=
  { res := Res.send {} "Server is running! <a href=\"/auth/google\">Login with Google</a>",
    server := srv, calls := [] }

/-- The storage handle of lines 97-100. -/
structure Drive where
  version : String
  auth : OAuth2Client
deriving DecidableEq, Repr

/-- The handle `drive` of lines 97-100.  It is built once with `auth: oAuth2Client`, the
client object itself, so in every server state its `auth` is the client of that state. -/
def drive (srv : Server) : Drive := { version := "v3", auth := srv.oAuth2Client }

/-- What a storage operation leaves behind: the answer the handler gets, the record of the
call, and the client after the operation. -/
structure Answer (α : Type) where
  result : Except JsError α
  call : Call
  auth : OAuth2Client

/-- Modelled from the spec: the SDK operation `drive.files.list`, which `index.js` only
calls.  Spec 4.4: the handle is bound to the credential slot by reference, so the call
presents the credential its client holds when the call is made.  The client may renew its
access token during the operation. -/
def Drive.filesList (d : Drive) (p : Provider) (params : ListParams) : Answer ListData :=
  { result := p.filesList d.auth.credentials params,
    call := .filesList d.auth.credentials params,
    auth := d.auth.renewed (p.renewal d.auth.credentials) }

/-- Modelled from the spec: the SDK operation `drive.files.create`, which `index.js` only
calls.  Spec 4.4: the handle is bound to the credential slot by reference, so the call
presents the credential its client holds when the call is made.  The client may renew its
access token during the operation. -/
def Drive.filesCreate (d : Drive) (p : Provider) (params : CreateParams) : Answer CreateData :=
  { result := p.filesCreate d.auth.credentials params,
    call := .filesCreate d.auth.credentials params,
    auth := d.auth.renewed (p.renewal d.auth.credentials) }

/-- Route `GET /files` (lines 107-119).  The handler does not touch the client; the client the
operation leaves is the client of the server afterwards. -/
def filesHandler (srv : Server) (p : Provider) (_req : Request) : Outcome :=
  let answer := (drive srv).filesList p { pageSize := 10, fields := "files(name, id)" }
  match answer.result with
  | .ok data =>
    let files := data.files
    { res := Res.json {} (.files files), server := { srv with oAuth2Client := answer.auth },
      calls := [answer.call] }
  | .error _err =>
    { res := (Res.status {} 500).json (.obj [("error", "Failed to list files")]),
      server := { srv with oAuth2Client := answer.auth }, calls := [answer.call] }

/-- Route `POST /upload` (lines 121-139).  The argument of `drive.files.create` is evaluated
before the call: reading `originalname` of an undefined `req.file` throws inside the `try`,
and the `catch` answers.  The handler does not touch the client; the client the operation
leaves is the client of the server afterwards. -/
def uploadHandler (srv : Server) (p : Provider) (req : Request) : Outcome :=
  match req.file with
  | none =>
    { res := (Res.status {} 500).json (.obj [("error", "Failed to upload file")]),
      server := srv, calls := [] }
  | some file =>
    let answer := (drive srv).filesCreate p
      { resource := { name := file.originalname, mimeType := file.mimetype },
        media := { mimeType := file.mimetype, body := file.stream } }
    match answer.result with
    | .ok data =>
      { res := Res.json {} (.obj [("fileId", data.id)]),
        server := { srv with oAuth2Client := answer.auth }, calls := [answer.call] }
    | .error _err =>
      { res := (Res.status {} 500).json (.obj [("error", "Failed to upload file")]),
        server := { srv with oAuth2Client := answer.auth }, calls := [answer.call] }

/-- The handler Express runs for a routed request. -/
def handle (srv : Server) (p : Provider) (req : Request) : Outcome :=
  match req.route with
  | .root => rootHandler srv p req
  | .authGoogle => authGoogleHandler srv p req
  | .authGoogleCallback => authGoogleCallbackHandler srv p req
  | .files => filesHandler srv p req
  | .upload => uploadHandler srv p req

/-! ## Startup -/

/-- The process environment after `dotenv` has loaded the `.env` file. -/
abbrev Env := String → Option String

/-- What the startup script does, in order. -/
inductive StartupEvent where
  | express
  | multer (dest : String)
  | dotenvConfig
  | consoleLog (msg : String)
  | consoleError (msg : String)
  | processExit (status : Nat)
  | newOAuth2 (clientId clientSecret redirectUri : Option String)
  | generateAuthUrl (opts : AuthUrlOpts)
  | route (method path : String)
  | googleDrive (version : String)
  | listen (port : Port)
deriving DecidableEq, Repr

/-- The event builds the OAuth client. -/
def StartupEvent.buildsClient : StartupEvent → Bool
  | .newOAuth2 _ _ _ => true
  | _ => false

/-- The event registers a route. -/
def StartupEvent.registersRoute : StartupEvent → Bool
  | .route _ _ => true
  | _ => false

/-- The event listens on a port. -/
def StartupEvent.listens : StartupEvent → Bool
  | .listen _ => true
  | _ => false

/-- How the startup script ends: the process has exited, or the server is serving. -/
inductive StartupResult where
  | exited (status : Nat)
  | serving (srv : Server)
deriving DecidableEq, Repr

/-- The run of the startup script: what it did and how it ended. -/
structure Startup where
  trace : List StartupEvent
  result : StartupResult
deriving DecidableEq, Repr

/-- The scope list of line 21. -/
def scopes : List String := ["https://www.googleapis.com/auth/drive"]

/-- The text of a port in a template literal. -/
def Port.text : Port → String
  | .env s => s
  | .num n => toString n

/-- The text `console.log` prints for a boolean. -/
def boolText (b : Bool) : String := if b then "true" else "false"

/-- Lines 1-15 of `index.js`: the app and the upload middleware are created, the `.env` file
is loaded and the environment check is printed. -/
def environmentCheck (env : Env) : List StartupEvent :=
  [ .express, .multer "uploads/", .dotenvConfig,
    .consoleLog "=== ENVIRONMENT CHECK ===",
    .consoleLog ("CLIENT_ID: " ++ (if truthy (env "CLIENT_ID") then "Present" else "Missing")),
    .consoleLog
      ("CLIENT_SECRET: " ++ (if truthy (env "CLIENT_SECRET") then "Present" else "Missing")),
    .consoleLog ("REDIRECT_URI: " ++ (env "REDIRECT_URI").getD "undefined"),
    .consoleLog "========================" ]

/-- The module body of `index.js`, top to bottom (lines 1-145). -/
def startup (env : Env) : Startup :=
  let check := environmentCheck env
  let clientId := env "CLIENT_ID"
  let clientSecret := env "CLIENT_SECRET"
  let redirectUri := env "REDIRECT_URI"
  if !truthy clientId || !truthy clientSecret || !truthy redirectUri then
    { trace := check ++
        [ .consoleError "Missing required environment variables!",
          .consoleError "Required: CLIENT_ID, CLIENT_SECRET, REDIRECT_URI",
          .processExit 1 ],
      result := .exited 1 }
  else
    let oAuth2Client := OAuth2Client.new clientId clientSecret redirectUri
    let opts : AuthUrlOpts :=
      { access_type := "offline", scope := scopes, include_granted_scopes := true }
    let authUrl := oAuth2Client.generateAuthUrl opts
    let PORT : Port := if truthy (env "PORT") then .env ((env "PORT").getD "") else .num 5000
    { trace := check ++
        [ .newOAuth2 clientId clientSecret redirectUri,
          .consoleLog "OAuth2Client created:",
          .consoleLog ("- Client ID set: " ++ boolText (truthy oAuth2Client.clientId)),
          .consoleLog ("- Client Secret set: " ++ boolText (truthy oAuth2Client.clientSecret)),
          .consoleLog ("- Redirect URI set: " ++ boolText (truthy oAuth2Client.redirectUri)),
          .generateAuthUrl opts,
          .route "GET" "/auth/google",
          .route "GET" "/auth/google/callback",
          .googleDrive "v3",
          .route "GET" "/",
          .route "GET" "/files",
          .route "POST" "/upload",
          .listen PORT,
          .consoleLog ("Server is running on http://localhost:" ++ PORT.text),
          .consoleLog ("Visit http://localhost:" ++ PORT.text ++
            "/auth/google to start authentication") ],
      result := .serving { oAuth2Client := oAuth2Client, authUrl := authUrl, PORT := PORT } }

/-! ## Sequences of requests -/

/-- One request together with what the provider answers while it is handled. -/
structure Step where
  req : Request
  provider : Provider

/-- The server after handling the requests of `steps` in order. -/
def run (srv : Server) (steps : List Step) : Server :=
  steps.foldl (fun s st => (handle s st.provider st.req).server) srv

/-- The credential a step stores, read off the spec (4.3): a callback request with a code
whose token exchange succeeds stores the access and refresh token of the answer. -/
def exchanged (st : Step) : Option Credentials :=
  if st.req.route = .authGoogleCallback then
    match st.req.query.lookup "code" with
    | none => none
    | some c =>
      if c.truthy then
        match st.provider.getToken c with
        | .ok t => some { refresh_token := t.refresh_token, access_token := t.access_token }
        | .error _ => none
      else none
  else none

/-- The credential stored by the most recent successful callback exchange of `steps`, and
`none` when there has been none. -/
def lastExchange : List Step → Option Credentials
  | [] => none
  | st :: rest =>
    match lastExchange rest with
    | some c => some c
    | none => exchanged st

/-- The step invokes a storage operation: a listing, or an upload that carries a file. -/
def Step.callsStorage (st : Step) : Bool :=
  match st.req.route with
  | .files => true
  | .upload => st.req.file.isSome
  | _ => false

/-- The slot after a step, in words: a successful callback exchange stores its credential;
otherwise a storage operation during which the client renews, while the slot holds a
refresh token, keeps the refresh token and replaces the access token by the renewed one;
otherwise the slot stays. -/
def slotStep (slot : Option Credentials) (st : Step) : Option Credentials :=
  match exchanged st with
  | some c => some c
  | none =>
    if st.callsStorage then
      match slot, st.provider.renewal slot with
      | some cr, some t =>
        if truthy cr.refresh_token then
          some { refresh_token := cr.refresh_token, access_token := t.access_token }
        else slot
      | _, _ => slot
    else slot

/-- The slot after a sequence of requests on a server that started without a credential. -/
def slotAfter (steps : List Step) : Option Credentials :=
  steps.foldl slotStep none

/-- The credential a storage call presents; `none` for a call that is not a storage call. -/
def Call.presented : Call → Option (Option Credentials)
  | .getToken _ => none
  | .filesList auth _ => some auth
  | .filesCreate auth _ => some auth

/-! ## Concrete inputs -/

/-- A provider that accepts the code `valid` and rejects every other code, lists one file
and creates files under a fixed id when a credential is presented, and rejects storage
calls that present no credential. -/
def demoProvider : Provider where
  getToken c :=
    if c = .str "valid" then .ok { access_token := some "at-1", refresh_token := some "rt-1" }
    else .error { message := "invalid_grant" }
  filesList auth _ :=
    match auth with
    | none => .error { message := "Login Required" }
    | some _ => .ok { files := [{ name := "a.txt", id := "id-1" }] }
  filesCreate auth _ :=
    match auth with
    | none => .error { message := "Login Required" }
    | some _ => .ok { id := "id-2" }
  renewal _ := none

/-- The demo provider at a moment when the client renews: the token endpoint answers the
access token `at-R`. -/
def renewingProvider : Provider :=
  { demoProvider with
    renewal := fun _ => some { access_token := some "at-R", refresh_token := none } }

/-- An environment with the three required settings. -/
def demoEnv : Env := fun k =>
  if k = "CLIENT_ID" then some "client-1"
  else if k = "CLIENT_SECRET" then some "secret-1"
  else if k = "REDIRECT_URI" then some "http://localhost:5000/auth/google/callback"
  else none

/-- An environment in which `CLIENT_SECRET` is the empty string. -/
def brokenEnv : Env := fun k =>
  if k = "CLIENT_ID" then some "client-1"
  else if k = "CLIENT_SECRET" then some ""
  else if k = "REDIRECT_URI" then some "http://localhost:5000/auth/google/callback"
  else none

/-- The server that `demoEnv` starts. -/
def demoServer : Server :=
  { oAuth2Client := OAuth2Client.new (some "client-1") (some "secret-1")
      (some "http://localhost:5000/auth/google/callback"),
    authUrl :=
      { client_id := some "client-1",
        redirect_uri := some "http://localhost:5000/auth/google/callback",
        scope := scopes, access_type := "offline", include_granted_scopes := true },
    PORT := .num 5000 }

/-- The demo server holding an earlier credential. -/
def demoAuthorized : Server :=
  { demoServer with
    oAuth2Client := demoServer.oAuth2Client.setCredentials
      { refresh_token := some "rt-0", access_token := some "at-0" } }

/-- A request to a route, without query, headers, body or file. -/
def plainRequest (r : Route) : Request :=
  { route := r, query := [], headers := [], body := "", file := none }

/-- A callback request carrying the given code. -/
def callbackRequest (code : String) : Request :=
  { plainRequest .authGoogleCallback with query := [("code", .str code)] }

/-- A successful callback followed by a listing during which the client renews. -/
def renewalHistory : List Step :=
  [⟨callbackRequest "valid", demoProvider⟩, ⟨plainRequest .files, renewingProvider⟩]

/-- The part `a.txt` of type `text/plain` with the two bytes of `hi`. -/
def demoPart : FilePart :=
  { filename := "a.txt", contentType := "text/plain", content := [104, 105] }

/-- An upload request as the upload middleware hands it to the route. -/
def uploadRequest (part : Option FilePart) (staged : String) : Request :=
  { plainRequest .upload with file := uploadSingle part staged }

/-! ## The callback route -/

/-- C1: a callback request whose query has no `code` is answered with status 400 and the body
`No authorization code received`; the handler makes no provider call (so no token exchange)
and the server, with its stored credential, is what it was. -/
theorem callback_without_code (srv : Server) (p : Provider) (req : Request)
    (hroute : req.route = .authGoogleCallback) (hcode : req.query.lookup "code" = none) :
    (handle srv p req).res.statusCode = 400 ∧
    (handle srv p req).res.body = some (.text "No authorization code received") ∧
    (handle srv p req).calls = [] ∧
    (handle srv p req).server = srv ∧
    (handle srv p req).server.oAuth2Client.credentials = srv.oAuth2Client.credentials := by
  simp [handle, hroute, authGoogleCallbackHandler, hcode, Res.status, Res.send]

/-- Witness of C1: the authorized demo server receives a callback with an empty query. -/
theorem callback_without_code_witness :
    (handle demoAuthorized demoProvider (plainRequest .authGoogleCallback)).res.statusCode = 400 ∧
    (handle demoAuthorized demoProvider (plainRequest .authGoogleCallback)).res.body
      = some (.text "No authorization code received") ∧
    (handle demoAuthorized demoProvider (plainRequest .authGoogleCallback)).calls = [] ∧
    (handle demoAuthorized demoProvider (plainRequest .authGoogleCallback)).server
      = demoAuthorized ∧
    (handle demoAuthorized demoProvider
      (plainRequest .authGoogleCallback)).server.oAuth2Client.credentials
      = some { refresh_token := some "rt-0", access_token := some "at-0" } :=
  callback_without_code demoAuthorized demoProvider (plainRequest .authGoogleCallback) rfl rfl

/-- C2: when the callback carries a non-empty (truthy) `code` and the token exchange raises
the error `e`, the answer is status 500 with the body `Authentication failed: ` followed by
the message of `e`, and the server, with its stored credential, is what it was: the
credential is neither cleared nor replaced. -/
theorem callback_exchange_failure (srv : Server) (p : Provider) (req : Request)
    (c : QueryValue) (e : JsError)
    (hroute : req.route = .authGoogleCallback) (hcode : req.query.lookup "code" = some c)
    (htruthy : c.truthy = true) (hfail : p.getToken c = .error e) :
    (handle srv p req).res.statusCode = 500 ∧
    (handle srv p req).res.body = some (.text ("Authentication failed: " ++ e.message)) ∧
    (handle srv p req).server = srv ∧
    (handle srv p req).server.oAuth2Client.credentials = srv.oAuth2Client.credentials := by
  simp [handle, hroute, authGoogleCallbackHandler, hcode, htruthy, hfail, Res.status, Res.send]

/-- Witness of C2: the authorized demo server receives the code `invalid`. -/
theorem callback_exchange_failure_witness :
    (handle demoAuthorized demoProvider (callbackRequest "invalid")).res.statusCode = 500 ∧
    (handle demoAuthorized demoProvider (callbackRequest "invalid")).res.body
      = some (.text ("Authentication failed: " ++ "invalid_grant")) ∧
    (handle demoAuthorized demoProvider (callbackRequest "invalid")).server = demoAuthorized ∧
    (handle demoAuthorized demoProvider
      (callbackRequest "invalid")).server.oAuth2Client.credentials
      = some { refresh_token := some "rt-0", access_token := some "at-0" } :=
  callback_exchange_failure demoAuthorized demoProvider (callbackRequest "invalid")
    (.str "invalid") { message := "invalid_grant" } rfl rfl (by decide) (by simp [demoProvider])

/-- C3: when the callback carries a non-empty (truthy) `code` and the token exchange answers
with tokens whose access token is `a` and refresh token is `r`, the answer is status 200 with
the body `Authentication successful!`, and the stored credential afterwards is exactly the
pair of `r` and `a`, whatever was stored before; nothing else of the server changes. -/
theorem callback_exchange_success (srv : Server) (p : Provider) (req : Request)
    (c : QueryValue) (a r : Option String)
    (hroute : req.route = .authGoogleCallback) (hcode : req.query.lookup "code" = some c)
    (htruthy : c.truthy = true)
    (hok : p.getToken c = .ok { access_token := a, refresh_token := r }) :
    (handle srv p req).res.statusCode = 200 ∧
    (handle srv p req).res.body = some (.text "Authentication successful!") ∧
    (handle srv p req).server.oAuth2Client.credentials
      = some { refresh_token := r, access_token := a } ∧
    (handle srv p req).server
      = { srv with
          oAuth2Client :=
            { srv.oAuth2Client with
              credentials := some { refresh_token := r, access_token := a } } } := by
  simp [handle, hroute, authGoogleCallbackHandler, hcode, htruthy, hok, Res.send,
    OAuth2Client.setCredentials]

/-- Witness of C3: the authorized demo server receives the code `valid`; the credential
`rt-0`, `at-0` is replaced by `rt-1`, `at-1`. -/
theorem callback_exchange_success_witness :
    demoAuthorized.oAuth2Client.credentials
      = some { refresh_token := some "rt-0", access_token := some "at-0" } ∧
    (handle demoAuthorized demoProvider (callbackRequest "valid")).res.statusCode = 200 ∧
    (handle demoAuthorized demoProvider (callbackRequest "valid")).res.body
      = some (.text "Authentication successful!") ∧
    (handle demoAuthorized demoProvider
      (callbackRequest "valid")).server.oAuth2Client.credentials
      = some { refresh_token := some "rt-1", access_token := some "at-1" } :=
  ⟨rfl,
    (callback_exchange_success demoAuthorized demoProvider (callbackRequest "valid")
      (.str "valid") (some "at-1") (some "rt-1") rfl rfl (by decide) (by simp [demoProvider])).1,
    (callback_exchange_success demoAuthorized demoProvider (callbackRequest "valid")
      (.str "valid") (some "at-1") (some "rt-1") rfl rfl (by decide) (by simp [demoProvider])).2.1,
    (callback_exchange_success demoAuthorized demoProvider (callbackRequest "valid")
      (.str "valid") (some "at-1") (some "rt-1") rfl rfl (by decide)
      (by simp [demoProvider])).2.2.1⟩

/-! ## Startup -/

/-- A setting that is missing or empty is falsy. -/
theorem truthy_eq_false_iff (v : Option String) :
    truthy v = false ↔ v = none ∨ v = some "" := by
  cases v with
  | none => simp [truthy]
  | some s => simp [truthy]

/-- C4: when at least one of `CLIENT_ID`, `CLIENT_SECRET`, `REDIRECT_URI` is missing or is the
empty string, startup ends with `process.exit(1)`: the last things it does are to print the
diagnostic naming the three required settings and to exit with status 1, and nothing it did
before builds the OAuth client, registers a route or listens on a port. -/
theorem startup_missing_setting_exits (env : Env)
    (hmissing :
      (env "CLIENT_ID" = none ∨ env "CLIENT_ID" = some "") ∨
      (env "CLIENT_SECRET" = none ∨ env "CLIENT_SECRET" = some "") ∨
      (env "REDIRECT_URI" = none ∨ env "REDIRECT_URI" = some "")) :
    (startup env).result = .exited 1 ∧
    (∃ before : List StartupEvent,
      (startup env).trace = before ++
        [ .consoleError "Missing required environment variables!",
          .consoleError "Required: CLIENT_ID, CLIENT_SECRET, REDIRECT_URI",
          .processExit 1 ] ∧
      ∀ ev ∈ before, ev ≠ .processExit 1) ∧
    ∀ ev ∈ (startup env).trace,
      ev.buildsClient = false ∧ ev.registersRoute = false ∧ ev.listens = false := by
  have hcond : (!truthy (env "CLIENT_ID") || !truthy (env "CLIENT_SECRET")
      || !truthy (env "REDIRECT_URI")) = true := by
    rcases hmissing with h | h | h
    · have := (truthy_eq_false_iff _).2 h
      simp [this]
    · have := (truthy_eq_false_iff _).2 h
      simp [this]
    · have := (truthy_eq_false_iff _).2 h
      simp [this]
  refine ⟨?_, ?_, ?_⟩
  · simp only [startup, hcond, if_true]
  · refine ⟨environmentCheck env, ?_, ?_⟩
    · simp only [startup, hcond, if_true]
    · intro ev hev
      simp only [environmentCheck, List.mem_cons, List.mem_singleton, List.not_mem_nil,
        or_false] at hev
      rcases hev with h | h | h | h | h | h | h | h <;> subst h <;> simp
  · intro ev hev
    simp only [startup, environmentCheck, hcond, if_true, List.mem_append, List.mem_cons,
      List.mem_singleton, List.not_mem_nil, or_false] at hev
    rcases hev with (h | h | h | h | h | h | h | h) | h | h | h <;> subst h <;>
      simp [StartupEvent.buildsClient, StartupEvent.registersRoute, StartupEvent.listens]

/-- Witness of C4: `brokenEnv` has an empty `CLIENT_SECRET`. -/
theorem startup_missing_setting_exits_witness :
    brokenEnv "CLIENT_SECRET" = some "" ∧ (startup brokenEnv).result = .exited 1 :=
  ⟨rfl, (startup_missing_setting_exits brokenEnv (Or.inr (Or.inl (Or.inr rfl)))).1⟩

/-! ## What a handler changes -/

/-- Without renewed tokens the client stays as it is. -/
theorem renewed_none (c : OAuth2Client) : c.renewed none = c := by
  unfold OAuth2Client.renewed
  cases c.credentials <;> rfl

/-- A renewal changes nothing of the client but the credential slot. -/
theorem renewed_eq (c : OAuth2Client) (t : Option Tokens) :
    c.renewed t = { c with credentials := (c.renewed t).credentials } := by
  unfold OAuth2Client.renewed
  cases c.credentials with
  | none => rfl
  | some cr =>
    cases t with
    | none => rfl
    | some t =>
      simp only
      split <;> rfl

/-- The slot after a renewal. -/
theorem renewed_credentials (c : OAuth2Client) (t : Option Tokens) :
    (c.renewed t).credentials
      = match c.credentials, t with
        | some cr, some t =>
          if truthy cr.refresh_token then
            some { refresh_token := cr.refresh_token, access_token := t.access_token }
          else c.credentials
        | _, _ => c.credentials := by
  unfold OAuth2Client.renewed
  cases h : c.credentials with
  | none => simp [h]
  | some cr =>
    cases t with
    | none => simp [h]
    | some t =>
      simp only
      split <;> simp [h]

/-- A handler changes nothing of the server but the credential slot of the client. -/
theorem handle_server (srv : Server) (p : Provider) (req : Request) :
    (handle srv p req).server
      = { srv with
          oAuth2Client :=
            { srv.oAuth2Client with
              credentials := (handle srv p req).server.oAuth2Client.credentials } } := by
  have hren := renewed_eq srv.oAuth2Client (p.renewal srv.oAuth2Client.credentials)
  unfold handle
  cases req.route with
  | root => rfl
  | authGoogle => rfl
  | authGoogleCallback =>
    simp only [authGoogleCallbackHandler]
    split
    · rfl
    · split
      · rfl
      · split <;> rfl
  | files =>
    simp only [filesHandler, drive, Drive.filesList]
    split <;> (simp only; rw [hren])
  | upload =>
    simp only [uploadHandler, drive, Drive.filesCreate]
    split
    · rfl
    · split <;> (simp only; rw [hren])

/-- The credential slot after a step is what `slotStep` says. -/
theorem handle_credentials (srv : Server) (st : Step) :
    (handle srv st.provider st.req).server.oAuth2Client.credentials
      = slotStep srv.oAuth2Client.credentials st := by
  have hren := renewed_credentials srv.oAuth2Client
    (st.provider.renewal srv.oAuth2Client.credentials)
  unfold handle slotStep exchanged Step.callsStorage
  cases hr : st.req.route with
  | root => simp [rootHandler]
  | authGoogle => simp [authGoogleHandler]
  | authGoogleCallback =>
    simp only [authGoogleCallbackHandler, if_true]
    cases hc : st.req.query.lookup "code" with
    | none => simp
    | some c =>
      cases ht : c.truthy with
      | false => simp [ht]
      | true =>
        cases hg : st.provider.getToken c with
        | error e => simp [ht, hg]
        | ok t => simp [ht, hg, OAuth2Client.setCredentials]
  | files =>
    simp only [filesHandler, drive, Drive.filesList]
    split <;> simp [hren]
  | upload =>
    simp only [uploadHandler, drive, Drive.filesCreate]
    cases hf : st.req.file with
    | none => simp
    | some file =>
      simp only
      split <;> simp [hren]

/-- Running requests changes nothing of the server but the credential slot. -/
theorem run_server (srv : Server) (steps : List Step) :
    run srv steps
      = { srv with
          oAuth2Client :=
            { srv.oAuth2Client with
              credentials := (run srv steps).oAuth2Client.credentials } } := by
  induction steps generalizing srv with
  | nil => rfl
  | cons st rest ih =>
    have h1 : run srv (st :: rest) = run (handle srv st.provider st.req).server rest := rfl
    rw [h1, ih, handle_server srv st.provider st.req]

/-- The credential slot after a sequence of requests, step by step. -/
theorem run_credentials (srv : Server) (steps : List Step) :
    (run srv steps).oAuth2Client.credentials
      = steps.foldl slotStep srv.oAuth2Client.credentials := by
  induction steps generalizing srv with
  | nil => rfl
  | cons st rest ih =>
    have h1 : run srv (st :: rest) = run (handle srv st.provider st.req).server rest := rfl
    rw [h1, ih, handle_credentials]
    rfl

/-- The refresh token after a step: that of the exchange, else the one that was there. -/
theorem slotStep_refresh (slot : Option Credentials) (st : Step) :
    (slotStep slot st).map Credentials.refresh_token
      = match exchanged st with
        | some c => some c.refresh_token
        | none => slot.map Credentials.refresh_token := by
  unfold slotStep
  cases exchanged st with
  | some c => rfl
  | none =>
    simp only
    split
    · cases slot with
      | none => rfl
      | some cr =>
        cases st.provider.renewal (some cr) with
        | none => rfl
        | some t =>
          simp only
          split <;> rfl
    · rfl

/-- The refresh token in the slot is the one stored by the most recent successful exchange,
whatever renewals happened since. -/
theorem foldl_slotStep_refresh (slot : Option Credentials) (steps : List Step) :
    (steps.foldl slotStep slot).map Credentials.refresh_token
      = match lastExchange steps with
        | some c => some c.refresh_token
        | none => slot.map Credentials.refresh_token := by
  induction steps generalizing slot with
  | nil => rfl
  | cons st rest ih =>
    simp only [List.foldl_cons, lastExchange]
    rw [ih, slotStep_refresh]
    cases lastExchange rest with
    | some c => rfl
    | none => simp only

/-- A step during which the client does not renew stores what it exchanged, else nothing. -/
theorem slotStep_of_no_renewal (slot : Option Credentials) (st : Step)
    (h : ∀ c, st.provider.renewal c = none) :
    slotStep slot st
      = match exchanged st with
        | some c => some c
        | none => slot := by
  unfold slotStep
  cases exchanged st with
  | some c => rfl
  | none =>
    simp only [h]
    split
    · cases slot <;> rfl
    · rfl

/-- Without renewals the slot holds the credential of the most recent successful exchange. -/
theorem foldl_slotStep_of_no_renewal (slot : Option Credentials) (steps : List Step)
    (h : ∀ st ∈ steps, ∀ c, st.provider.renewal c = none) :
    steps.foldl slotStep slot
      = match lastExchange steps with
        | some c => some c
        | none => slot := by
  induction steps generalizing slot with
  | nil => rfl
  | cons st rest ih =>
    simp only [List.foldl_cons, lastExchange]
    rw [ih _ (fun s hs => h s (List.mem_cons_of_mem _ hs)),
      slotStep_of_no_renewal slot st (h st (List.mem_cons_self _ _))]
    cases lastExchange rest with
    | some c => rfl
    | none => simp only

/-- The upload middleware leaves no `stream` in `req.file`. -/
theorem uploadSingle_stream (part : Option FilePart) (staged : String) (file : UploadedFile)
    (h : uploadSingle part staged = some file) : file.stream = none := by
  unfold uploadSingle at h
  cases part with
  | none => simp at h
  | some f =>
    simp only [Option.some.injEq] at h
    subst h
    rfl

/-- A server that startup leaves serving was built from the three settings, which are all
present, and holds no credential. -/
theorem startup_serving (env : Env) (srv0 : Server) (h : (startup env).result = .serving srv0) :
    truthy (env "CLIENT_ID") = true ∧ truthy (env "CLIENT_SECRET") = true ∧
    truthy (env "REDIRECT_URI") = true ∧
    srv0.oAuth2Client
      = OAuth2Client.new (env "CLIENT_ID") (env "CLIENT_SECRET") (env "REDIRECT_URI") ∧
    srv0.authUrl = srv0.oAuth2Client.generateAuthUrl
      { access_type := "offline", scope := scopes, include_granted_scopes := true } := by
  unfold startup at h
  simp only at h
  split at h
  · simp at h
  · rename_i hc
    simp only [Bool.or_eq_true, Bool.not_eq_true', not_or, Bool.not_eq_false] at hc
    simp only [StartupResult.serving.injEq] at h
    subst h
    exact ⟨hc.1.1, hc.1.2, hc.2, rfl, rfl⟩

/-! ## The authorization redirect -/

/-- C5: on a server that startup left serving, every request to `GET /auth/google`, whatever
it carries, whatever credential is stored and whatever requests were handled before, is
answered with status 302 and the one target `authUrl` that startup computed; that target
carries the configured client identifier and the configured redirect target, which are both
present and non-empty. -/
theorem auth_google_redirect (env : Env) (srv0 : Server)
    (hstart : (startup env).result = .serving srv0)
    (steps : List Step) (cr : Option Credentials) (p : Provider) (req : Request)
    (hroute : req.route = .authGoogle) :
    ((handle (run srv0 steps) p req).res.statusCode = 302 ∧
      (handle (run srv0 steps) p req).res.location = some srv0.authUrl) ∧
    ((handle { srv0 with oAuth2Client := { srv0.oAuth2Client with credentials := cr } }
        p req).res.statusCode = 302 ∧
      (handle { srv0 with oAuth2Client := { srv0.oAuth2Client with credentials := cr } }
        p req).res.location = some srv0.authUrl) ∧
    srv0.authUrl.client_id = env "CLIENT_ID" ∧
    srv0.authUrl.redirect_uri = env "REDIRECT_URI" ∧
    (∃ id uri, id ≠ "" ∧ uri ≠ "" ∧
      srv0.authUrl.client_id = some id ∧ srv0.authUrl.redirect_uri = some uri) := by
  obtain ⟨hid, _, huri, hclient, hurl⟩ := startup_serving env srv0 hstart
  have h1 : srv0.authUrl.client_id = env "CLIENT_ID" := by
    rw [hurl, hclient]; rfl
  have h2 : srv0.authUrl.redirect_uri = env "REDIRECT_URI" := by
    rw [hurl, hclient]; rfl
  refine ⟨?_, ?_, h1, h2, ?_⟩
  · have hrun : (run srv0 steps).authUrl = srv0.authUrl := by rw [run_server srv0 steps]
    simp [handle, hroute, authGoogleHandler, Res.redirect, hrun]
  · simp [handle, hroute, authGoogleHandler, Res.redirect]
  · rw [h1, h2]
    cases hc : env "CLIENT_ID" with
    | none => simp [hc, truthy] at hid
    | some id =>
      cases hu : env "REDIRECT_URI" with
      | none => simp [hu, truthy] at huri
      | some uri =>
        refine ⟨id, uri, ?_, ?_, rfl, rfl⟩
        · simpa [hc, truthy] using hid
        · simpa [hu, truthy] using huri

/-- Witness of C5: after a successful callback on the demo server, and with an arbitrary
other credential, `GET /auth/google` redirects to the startup target. -/
theorem auth_google_redirect_witness :
    (startup demoEnv).result = .serving demoServer ∧
    (handle (run demoServer [⟨callbackRequest "valid", demoProvider⟩]) demoProvider
      (plainRequest .authGoogle)).res.location = some demoServer.authUrl ∧
    demoServer.authUrl.client_id = demoEnv "CLIENT_ID" ∧
    demoServer.authUrl.redirect_uri = demoEnv "REDIRECT_URI" :=
  ⟨by decide,
    (auth_google_redirect demoEnv demoServer (by decide)
      [⟨callbackRequest "valid", demoProvider⟩] none demoProvider
      (plainRequest .authGoogle) rfl).1.2,
    (auth_google_redirect demoEnv demoServer (by decide)
      [⟨callbackRequest "valid", demoProvider⟩] none demoProvider
      (plainRequest .authGoogle) rfl).2.2.1,
    (auth_google_redirect demoEnv demoServer (by decide)
      [⟨callbackRequest "valid", demoProvider⟩] none demoProvider
      (plainRequest .authGoogle) rfl).2.2.2.1⟩

/-! ## The proxy routes -/

/-- C6: every request to `GET /files` makes exactly one storage call, the list operation with
`pageSize` 10 and `fields` equal to `files(name, id)`, whatever the request carries.  When
the call succeeds with the file list `L` the answer is status 200 with the JSON body `L`;
when it fails, with or without a stored credential, the answer is status 500 with the JSON
body whose `error` is `Failed to list files`. -/
theorem files_route (srv : Server) (p : Provider) (req : Request) (hroute : req.route = .files) :
    (handle srv p req).calls
      = [.filesList srv.oAuth2Client.credentials
          { pageSize := 10, fields := "files(name, id)" }] ∧
    (∀ L : List DriveFile,
      p.filesList srv.oAuth2Client.credentials { pageSize := 10, fields := "files(name, id)" }
        = .ok { files := L } →
      (handle srv p req).res.statusCode = 200 ∧
      (handle srv p req).res.body = some (.json (.files L))) ∧
    (∀ e : JsError,
      p.filesList srv.oAuth2Client.credentials { pageSize := 10, fields := "files(name, id)" }
        = .error e →
      (handle srv p req).res.statusCode = 500 ∧
      (handle srv p req).res.body
        = some (.json (.obj [("error", "Failed to list files")]))) := by
  refine ⟨?_, ?_, ?_⟩
  · simp only [handle, hroute, filesHandler, drive, Drive.filesList]
    split <;> rfl
  · intro L hL
    simp [handle, hroute, filesHandler, drive, Drive.filesList, hL, Res.json]
  · intro e he
    simp [handle, hroute, filesHandler, drive, Drive.filesList, he, Res.json, Res.status]

/-- Witness of C6: listing on the demo server without a credential fails with the generic
body, and listing with a credential answers the list. -/
theorem files_route_witness :
    ((handle demoServer demoProvider (plainRequest .files)).res.statusCode = 500 ∧
      (handle demoServer demoProvider (plainRequest .files)).res.body
        = some (.json (.obj [("error", "Failed to list files")]))) ∧
    ((handle demoAuthorized demoProvider (plainRequest .files)).res.statusCode = 200 ∧
      (handle demoAuthorized demoProvider (plainRequest .files)).res.body
        = some (.json (.files [{ name := "a.txt", id := "id-1" }]))) :=
  ⟨(files_route demoServer demoProvider (plainRequest .files) rfl).2.2
      { message := "Login Required" } rfl,
    (files_route demoAuthorized demoProvider (plainRequest .files) rfl).2.1
      [{ name := "a.txt", id := "id-1" }] rfl⟩

/-- C7 (code defect): the upload of `a.txt`, type `text/plain`, content `hi`, reaches the
route as the upload middleware of line 5 leaves it, with a staged path and no `stream`.  The
create operation is called with the name and the type of the file, but the media body is
`undefined`, not the bytes of the file; the answer is status 200 with the `fileId` the
provider answered. -/
theorem upload_route_sends_no_body :
    (uploadRequest (some demoPart) "3f9a").file
      = some
          { originalname := "a.txt", mimetype := "text/plain", stream := none,
            path := "uploads/3f9a", size := 2 } ∧
    (handle demoAuthorized demoProvider (uploadRequest (some demoPart) "3f9a")).calls
      = [.filesCreate (some { refresh_token := some "rt-0", access_token := some "at-0" })
          { resource := { name := "a.txt", mimeType := "text/plain" },
            media := { mimeType := "text/plain", body := none } }] ∧
    (handle demoAuthorized demoProvider (uploadRequest (some demoPart) "3f9a")).calls
      ≠ [.filesCreate (some { refresh_token := some "rt-0", access_token := some "at-0" })
          { resource := { name := "a.txt", mimeType := "text/plain" },
            media := { mimeType := "text/plain", body := some demoPart.content } }] ∧
    (handle demoAuthorized demoProvider (uploadRequest (some demoPart) "3f9a")).res.statusCode
      = 200 ∧
    (handle demoAuthorized demoProvider (uploadRequest (some demoPart) "3f9a")).res.body
      = some (.json (.obj [("fileId", "id-2")])) := by
  decide

/-- C10: a `POST /upload` request that reaches the handler without a file makes no provider
call, so no create call; the handler answers (the error of reading the file is caught) with
status 500 and the JSON body whose `error` is `Failed to upload file`, and the server is
what it was. -/
theorem upload_without_file (srv : Server) (p : Provider) (req : Request)
    (hroute : req.route = .upload) (hfile : req.file = none) :
    (handle srv p req).calls = [] ∧
    (handle srv p req).res.statusCode = 500 ∧
    (handle srv p req).res.body = some (.json (.obj [("error", "Failed to upload file")])) ∧
    (handle srv p req).server = srv := by
  simp [handle, hroute, uploadHandler, drive, Drive.filesCreate, hfile, Res.json, Res.status]

/-- Witness of C10: an upload request without a file on the authorized demo server. -/
theorem upload_without_file_witness :
    (plainRequest .upload).file = none ∧
    (handle demoAuthorized demoProvider (plainRequest .upload)).calls = [] ∧
    (handle demoAuthorized demoProvider (plainRequest .upload)).res.statusCode = 500 ∧
    (handle demoAuthorized demoProvider (plainRequest .upload)).res.body
      = some (.json (.obj [("error", "Failed to upload file")])) ∧
    (handle demoAuthorized demoProvider (plainRequest .upload)).server = demoAuthorized :=
  ⟨rfl, upload_without_file demoAuthorized demoProvider (plainRequest .upload) rfl rfl⟩

/-! ## The credential slot over sequences of requests -/

/-- A server that startup left serving holds, after any sequence of requests, the slot that
`slotAfter` describes. -/
theorem run_started_credentials (env : Env) (srv0 : Server)
    (hstart : (startup env).result = .serving srv0) (steps : List Step) :
    (run srv0 steps).oAuth2Client.credentials = slotAfter steps := by
  obtain ⟨_, _, _, hclient, _⟩ := startup_serving env srv0 hstart
  rw [run_credentials, hclient]
  rfl

/-- The refresh token in the slot of a started server is that of the most recent successful
exchange, and the slot is empty when there has been none. -/
theorem slotAfter_refresh (steps : List Step) :
    (slotAfter steps).map Credentials.refresh_token
      = (lastExchange steps).map Credentials.refresh_token := by
  unfold slotAfter
  rw [foldl_slotStep_refresh]
  cases lastExchange steps <;> rfl

/-- Without renewals the slot of a started server holds the credential of the most recent
successful exchange. -/
theorem slotAfter_of_no_renewal (steps : List Step)
    (h : ∀ st ∈ steps, ∀ c, st.provider.renewal c = none) :
    slotAfter steps = lastExchange steps := by
  unfold slotAfter
  rw [foldl_slotStep_of_no_renewal none steps h]
  cases lastExchange steps <;> rfl

/-- C8, as stated, fails: the demo server handles a successful callback, which stores `rt-1`
and `at-1`, and then a listing during which the client renews its access token to `at-R`.
The next listing presents `rt-1` with `at-R`, not the credential of the callback. -/
theorem storage_call_after_renewal_counterexample :
    (startup demoEnv).result = .serving demoServer ∧
    lastExchange renewalHistory
      = some { refresh_token := some "rt-1", access_token := some "at-1" } ∧
    (handle (run demoServer renewalHistory) demoProvider (plainRequest .files)).calls
      = [.filesList (some { refresh_token := some "rt-1", access_token := some "at-R" })
          { pageSize := 10, fields := "files(name, id)" }] ∧
    (handle (run demoServer renewalHistory) demoProvider (plainRequest .files)).calls
      ≠ [.filesList (lastExchange renewalHistory)
          { pageSize := 10, fields := "files(name, id)" }] := by
  decide

/-- C8, amended: on a server that startup left serving, after any sequence `before` of
requests, the storage call made by a `GET /files` request and the storage call made by a
`POST /upload` request with a file present the content of the credential slot at that moment,
and no call of any handler presents another credential.  The slot is empty when there has
been no successful callback exchange; otherwise its refresh token is the one stored by the
most recent successful exchange, and the whole credential is the one stored by that
exchange when the client has not renewed its access token since the start. -/
theorem storage_call_presents_slot (env : Env) (srv0 : Server)
    (hstart : (startup env).result = .serving srv0) (before : List Step) (st : Step) :
    (st.req.route = .files →
      (handle (run srv0 before) st.provider st.req).calls
        = [.filesList (slotAfter before) { pageSize := 10, fields := "files(name, id)" }]) ∧
    (∀ file : UploadedFile, st.req.route = .upload → st.req.file = some file →
      (handle (run srv0 before) st.provider st.req).calls
        = [.filesCreate (slotAfter before)
            { resource := { name := file.originalname, mimeType := file.mimetype },
              media := { mimeType := file.mimetype, body := file.stream } }]) ∧
    (∀ call ∈ (handle (run srv0 before) st.provider st.req).calls,
      ∀ auth, call.presented = some auth → auth = slotAfter before) ∧
    (slotAfter before).map Credentials.refresh_token
      = (lastExchange before).map Credentials.refresh_token ∧
    ((∀ s ∈ before, ∀ c, s.provider.renewal c = none) →
      slotAfter before = lastExchange before) := by
  have hcred := run_started_credentials env srv0 hstart before
  refine ⟨?_, ?_, ?_, slotAfter_refresh before, slotAfter_of_no_renewal before⟩
  · intro hroute
    simp only [handle, hroute, filesHandler, drive, Drive.filesList, hcred]
    split <;> rfl
  · intro file hroute hfile
    simp only [handle, hroute, uploadHandler, drive, Drive.filesCreate, hfile, hcred]
    split <;> rfl
  · intro call hcall auth hauth
    unfold handle at hcall
    cases hr : st.req.route with
    | root => simp [hr, rootHandler] at hcall
    | authGoogle => simp [hr, authGoogleHandler] at hcall
    | authGoogleCallback =>
      simp only [hr, authGoogleCallbackHandler] at hcall
      split at hcall
      · simp at hcall
      · split at hcall
        · simp at hcall
        · split at hcall <;>
          · simp only [List.mem_singleton] at hcall
            subst hcall
            simp [Call.presented] at hauth
    | files =>
      simp only [hr, filesHandler, drive, Drive.filesList, hcred] at hcall
      split at hcall <;>
      · simp only [List.mem_singleton] at hcall
        subst hcall
        simp only [Call.presented, Option.some.injEq] at hauth
        exact hauth.symm
    | upload =>
      simp only [hr, uploadHandler, drive, Drive.filesCreate, hcred] at hcall
      split at hcall
      · simp at hcall
      · split at hcall <;>
        · simp only [List.mem_singleton] at hcall
          subst hcall
          simp only [Call.presented, Option.some.injEq] at hauth
          exact hauth.symm

/-- Witness of the amended C8: after a successful callback and a listing with a renewal, the
next listing on the demo server presents the slot, which holds `rt-1` with `at-R`. -/
theorem storage_call_presents_slot_witness :
    (startup demoEnv).result = .serving demoServer ∧
    slotAfter renewalHistory
      = some { refresh_token := some "rt-1", access_token := some "at-R" } ∧
    (handle (run demoServer renewalHistory) demoProvider (plainRequest .files)).calls
      = [.filesList (slotAfter renewalHistory)
          { pageSize := 10, fields := "files(name, id)" }] :=
  ⟨by decide, by decide,
    (storage_call_presents_slot demoEnv demoServer (by decide) renewalHistory
      ⟨plainRequest .files, demoProvider⟩).1 rfl⟩

/-- C9, as stated, fails: a `GET /files` request on the authorized demo server, during which
the client renews its access token, leaves `rt-0` with `at-R` in the slot that held `rt-0`
with `at-0`. -/
theorem files_request_renews_credential_counterexample :
    (plainRequest .files).route ≠ .authGoogleCallback ∧
    demoAuthorized.oAuth2Client.credentials
      = some { refresh_token := some "rt-0", access_token := some "at-0" } ∧
    (handle demoAuthorized renewingProvider (plainRequest .files)).res.statusCode = 200 ∧
    (handle demoAuthorized renewingProvider (plainRequest .files)).server.oAuth2Client.credentials
      = some { refresh_token := some "rt-0", access_token := some "at-R" } ∧
    (handle demoAuthorized renewingProvider (plainRequest .files)).server.oAuth2Client.credentials
      ≠ demoAuthorized.oAuth2Client.credentials := by
  decide

/-- C9, amended: the stored credential is written only by a successful callback exchange and
by the client when it renews its access token during a storage call.  A request to `GET /`
or `GET /auth/google` leaves the server, with its stored credential, what it was; so does a
request to `GET /files` or `POST /upload` during which the client does not renew; and when
it renews, the slot keeps its refresh token and takes the renewed access token.  The answer
is status 200, 302 or 500 in every case.  So on a server that startup left serving, after
any sequence of requests the one slot is empty when there has been no successful callback
exchange, otherwise its refresh token is the one set by the most recent successful exchange,
and the whole credential is the one set by that exchange when no renewal happened. -/
theorem credential_written_by_callback_or_renewal (srv : Server) (p : Provider)
    (req : Request) (hroute : req.route ≠ .authGoogleCallback) :
    ((req.route = .root ∨ req.route = .authGoogle) → (handle srv p req).server = srv) ∧
    (p.renewal srv.oAuth2Client.credentials = none → (handle srv p req).server = srv) ∧
    ((handle srv p req).server.oAuth2Client.credentials = srv.oAuth2Client.credentials ∨
      ∃ cr t, srv.oAuth2Client.credentials = some cr ∧ truthy cr.refresh_token = true ∧
        p.renewal (some cr) = some t ∧
        (req.route = .files ∨ req.route = .upload) ∧
        (handle srv p req).server.oAuth2Client.credentials
          = some { refresh_token := cr.refresh_token, access_token := t.access_token }) ∧
    ((handle srv p req).res.statusCode = 200 ∨ (handle srv p req).res.statusCode = 302 ∨
      (handle srv p req).res.statusCode = 500) ∧
    (∀ (env : Env) (srv0 : Server) (steps : List Step),
      (startup env).result = .serving srv0 →
      (run srv0 steps).oAuth2Client.credentials = slotAfter steps ∧
      (slotAfter steps).map Credentials.refresh_token
        = (lastExchange steps).map Credentials.refresh_token ∧
      ((∀ s ∈ steps, ∀ c, s.provider.renewal c = none) →
        (run srv0 steps).oAuth2Client.credentials = lastExchange steps)) := by
  have hslot := handle_credentials srv ⟨req, p⟩
  have hsrv := handle_server srv p req
  have hex : exchanged ⟨req, p⟩ = none := by
    simp [exchanged, hroute]
  simp only [slotStep, hex] at hslot
  refine ⟨?_, ?_, ?_, ?_, ?_⟩
  · intro h
    have hcs : Step.callsStorage ⟨req, p⟩ = false := by
      rcases h with h | h <;> simp [Step.callsStorage, h]
    rw [hcs] at hslot
    simp only [Bool.false_eq_true, if_false] at hslot
    rw [hsrv, hslot]
  · intro h
    have hsame : (handle srv p req).server.oAuth2Client.credentials
        = srv.oAuth2Client.credentials := by
      rw [hslot]
      split
      · rw [h]
        cases srv.oAuth2Client.credentials <;> rfl
      · rfl
    rw [hsrv, hsame]
  · cases hcs : Step.callsStorage ⟨req, p⟩ with
    | false =>
      left
      rw [hslot, hcs]
      simp
    | true =>
      have hstorage : req.route = .files ∨ req.route = .upload := by
        unfold Step.callsStorage at hcs
        cases hr : req.route with
        | root => simp [hr] at hcs
        | authGoogle => simp [hr] at hcs
        | authGoogleCallback => exact absurd hr hroute
        | files => exact Or.inl rfl
        | upload => exact Or.inr rfl
      rw [hcs] at hslot
      simp only [if_true] at hslot
      cases hc : srv.oAuth2Client.credentials with
      | none =>
        left
        rw [hslot, hc]
      | some cr =>
        cases ht : p.renewal (some cr) with
        | none =>
          left
          rw [hslot, hc, ht]
        | some t =>
          cases hrt : truthy cr.refresh_token with
          | false =>
            left
            rw [hslot, hc, ht]
            simp [hrt]
          | true =>
            right
            refine ⟨cr, t, rfl, hrt, ht, hstorage, ?_⟩
            rw [hslot, hc, ht]
            simp [hrt]
  · unfold handle
    cases hr : req.route with
    | root => simp [rootHandler, Res.send]
    | authGoogle => simp [authGoogleHandler, Res.redirect]
    | authGoogleCallback => exact absurd hr hroute
    | files =>
      simp only [filesHandler, drive, Drive.filesList]
      split <;> simp [Res.json, Res.status]
    | upload =>
      simp only [uploadHandler, drive, Drive.filesCreate]
      split
      · simp [Res.json, Res.status]
      · split <;> simp [Res.json, Res.status]
  · intro env srv0 steps hstart
    have hrun := run_started_credentials env srv0 hstart steps
    refine ⟨hrun, slotAfter_refresh steps, ?_⟩
    intro hno
    rw [hrun, slotAfter_of_no_renewal steps hno]

/-- Witness of the amended C9: a listing without renewal on the authorized demo server
leaves the server as it was. -/
theorem credential_written_by_callback_or_renewal_witness :
    (plainRequest .files).route ≠ .authGoogleCallback ∧
    demoProvider.renewal demoAuthorized.oAuth2Client.credentials = none ∧
    (handle demoAuthorized demoProvider (plainRequest .files)).calls
      = [.filesList (some { refresh_token := some "rt-0", access_token := some "at-0" })
          { pageSize := 10, fields := "files(name, id)" }] ∧
    (handle demoAuthorized demoProvider (plainRequest .files)).server = demoAuthorized :=
  ⟨by decide, rfl, by decide,
    (credential_written_by_callback_or_renewal demoAuthorized demoProvider
      (plainRequest .files) (by decide)).2.1 rfl⟩

end GoogleDriveAPI
